import Mathlib

/-!
Verification of the torchbearer manifold-mixup tutorial notebook
(`docs/_static/notebooks/manifold_mixup.ipynb`) against its
natural-language specification.

The notebook is the only source file of the repository; the
`ManifoldMixup` callback it demonstrates lives in
`torchbearer/callbacks/manifold_mixup.py`, which is not part of the
source tree here.  Those parts are therefore modelled from the spec
and from the notebook's prose and recorded cell outputs; the data
pipeline, the two models (`SimpleModel`, `BetterModel`) and the
expected selection lists are embedded directly from the notebook.
-/

namespace Torchbearer

mutual

/-- A PyTorch module tree: a module has a layer type (its class name,
e.g. `"Conv2d"`, `"Sequential"`) and an ordered sequence of registered
named children, exactly as `nn.Module` stores submodules. -/
inductive TModule : Type where
  | mk (ty : String) (children : Children) : TModule

/-- The ordered registered children of a module, each with its
registered name. -/
inductive Children : Type where
  | nil : Children
  | cons (name : String) (m : TModule) (rest : Children) : Children

end

/-- Build a `Children` sequence from a list of named submodules. -/
def childrenOf : List (String × TModule) → Children
  | [] => .nil
  | (n, m) :: rest => .cons n m (childrenOf rest)

/-- The class name of a module. -/
def TModule.ty : TModule → String
  | .mk t _ => t

/-- The registered children of a module. -/
def TModule.children : TModule → Children
  | .mk _ cs => cs

/-- One node met during the traversal of a module tree: its
underscore-joined registered name, its depth (immediate children of the
model are depth 0, as the notebook's prose fixes), and its layer type. -/
structure LayerInfo : Type where
  path : String
  depth : Nat
  ty : String
deriving Repr, DecidableEq

/-- Modelled from the spec: names "are based upon the registered names
in the PyTorch module" and are joined with underscores, so a child `n`
of the node at path `p` is written `p_n` (top-level children keep their
bare name). -/
def joinName (p n : String) : String :=
  if p = "" then n else p ++ "_" ++ n

mutual

/-- Modelled from the spec: the callback "works by recursively searching
the modules and submodules of a model"; this walks one subtree, its root
at path `q` and depth `d` already recorded by the caller. -/
def walkMod (q : String) (d : Nat) : TModule → List LayerInfo
  | .mk _ cs => walkChildren q d cs

/-- Modelled from the spec: the single-pass preorder walk over a
sequence of registered children of the node at path `p`, the children
being at depth `d`; every submodule is recorded once with its path,
depth and type. -/
def walkChildren (p : String) (d : Nat) : Children → List LayerInfo
  | .nil => []
  | .cons n m rest =>
      let q := joinName p n
      ⟨q, d, m.ty⟩ :: walkMod q (d + 1) m ++ walkChildren p d rest

end

/-- All submodules of a model, in traversal (preorder) order.  The model
itself (the root) is not its own submodule and is not listed. -/
def walk (m : TModule) : List LayerInfo :=
  walkChildren "" 0 m.children

/-- The underscore-joined names of all submodules of a model. -/
def allSubmoduleNames (m : TModule) : List String :=
  (walk m).map LayerInfo.path

mutual

/-- Number of submodules in one subtree, its root included. -/
def countMod : TModule → Nat
  | .mk _ cs => 1 + countChildren cs

/-- Number of submodules in a sequence of subtrees, their roots included. -/
def countChildren : Children → Nat
  | .nil => 0
  | .cons _ m rest => countMod m + countChildren rest

end

/-- Number of submodules (at any depth) of a model, the root excluded. -/
def submoduleCount (m : TModule) : Nat :=
  countChildren m.children

/-- Modelled from the spec: the `ManifoldMixup` callback's selection
criteria (`torchbearer/callbacks/manifold_mixup.py` is not in the source
tree).  "Maximum traversal depth (or unlimited), an optional allow/deny
list of layer type names, an optional allow/deny list of layer name
patterns.  Immutable once a trial starts; set via a fluent configuration
interface."  The notebook uses the type list to "filter out the ReLU and
batch norm layers", so both lists are deny lists. -/
structure ManifoldMixup : Type where
  depth : Option Nat
  layerTypes : List String
  layerNames : List String
deriving Repr, DecidableEq

/-- A fresh callback: unlimited depth, no filters. -/
def ManifoldMixup.new : ManifoldMixup :=
  ⟨none, [], []⟩

/-- Modelled from the spec: fluent setter for the depth criterion
(`at_depth(N)`, `None` meaning unlimited); returns the callback. -/
def ManifoldMixup.at_depth (mm : ManifoldMixup) (d : Option Nat) : ManifoldMixup :=
  { mm with depth := d }

/-- Modelled from the spec: fluent setter for the layer-type deny list
(`with_layer_type_filter`); returns the callback. -/
def ManifoldMixup.with_layer_type_filter (mm : ManifoldMixup) (ts : List String) : ManifoldMixup :=
  { mm with layerTypes := ts }

/-- Modelled from the spec: fluent setter for the layer-name deny list
(`with_layer_filter`); returns the callback. -/
def ManifoldMixup.with_layer_filter (mm : ManifoldMixup) (ns : List String) : ManifoldMixup :=
  { mm with layerNames := ns }

/-- Modelled from the spec: a traversal node matches the criteria when
its depth equals the requested depth (or the depth is unlimited), its
type is not filtered out, and its name is not filtered out. -/
def ManifoldMixup.selects (mm : ManifoldMixup) (e : LayerInfo) : Bool :=
  (match mm.depth with
   | none => true
   | some d => e.depth == d)
  && mm.layerTypes.all (fun t => t != e.ty)
  && mm.layerNames.all (fun n => n != e.path)

/-- Modelled from the spec: `get_selected_layers(model)` — the
"selected layer set: derived, read-only, computed by walking the model's
submodule tree and testing each node against the criteria", returned as
the list of underscore-joined names in traversal order. -/
def ManifoldMixup.get_selected_layers (mm : ManifoldMixup) (m : TModule) : List String :=
  ((walk m).filter mm.selects).map LayerInfo.path

/-- `SimpleModel` from the notebook: a `convs` Sequential of
(`Conv2d`, `BatchNorm2d`, `ReLU`) repeated three times, and a `Linear`
classifier. -/
def SimpleModel : TModule :=
  .mk "SimpleModel" (childrenOf
    [("convs", .mk "Sequential" (childrenOf
        [("0", .mk "Conv2d" .nil), ("1", .mk "BatchNorm2d" .nil), ("2", .mk "ReLU" .nil),
         ("3", .mk "Conv2d" .nil), ("4", .mk "BatchNorm2d" .nil), ("5", .mk "ReLU" .nil),
         ("6", .mk "Conv2d" .nil), ("7", .mk "BatchNorm2d" .nil), ("8", .mk "ReLU" .nil)])),
     ("classifier", .mk "Linear" .nil)])

/-- `ConvModule` from the notebook: a composite of a convolution, a
batch norm and a ReLU, registered under user-chosen attribute names. -/
def ConvModule : TModule :=
  .mk "ConvModule" (childrenOf
    [("conv", .mk "Conv2d" .nil), ("bn", .mk "BatchNorm2d" .nil), ("relu", .mk "ReLU" .nil)])

/-- `BetterModel` from the notebook: three `ConvModule` blocks and a
`Linear` classifier, avoiding the anonymous Sequential. -/
def BetterModel : TModule :=
  .mk "BetterModel" (childrenOf
    [("conv_mod1", ConvModule), ("conv_mod2", ConvModule),
     ("conv_mod3", ConvModule), ("classifier", .mk "Linear" .nil)])

/-- The callback the notebook configures first:
`ManifoldMixup().at_depth(1).with_layer_type_filter([nn.BatchNorm2d, nn.ReLU])`. -/
def mmDepth1NoBnRelu : ManifoldMixup :=
  (ManifoldMixup.new.at_depth (some 1)).with_layer_type_filter ["BatchNorm2d", "ReLU"]

/-- The callback the notebook configures second: `ManifoldMixup().at_depth(None)`. -/
def mmAll : ManifoldMixup :=
  ManifoldMixup.new.at_depth none

/-- Modelled from the spec: the callback wraps (monkey-patches) the
forward computation of exactly the layers the criteria select; anything
not a submodule of the model "cannot be tracked by the callback or mixed
up". -/
def wrappedLayers (mm : ManifoldMixup) (m : TModule) : List String :=
  mm.get_selected_layers m

/-- Linear interpolation of two samples by the mixup coefficient. -/
def mix (lam a b : ℚ) : ℚ :=
  lam * a + (1 - lam) * b

/-- Modelled from the spec: mixing a batch pairs each sample `i` with a
partner `perm i` and interpolates the two by the common coefficient. -/
def mixBatch (lam : ℚ) (perm : Nat → Nat) (xs : List ℚ) : List ℚ :=
  (List.range xs.length).map fun i => mix lam (xs.getD i 0) (xs.getD (perm i) 0)

/-- Modelled from the spec: the monkey-patched forward of a wrapped
layer; when mixup is chosen for the batch the layer's output activations
are mixed, otherwise the layer behaves as before. -/
def wrapped_forward (lam : ℚ) (perm : Nat → Nat) (doMix : Bool)
    (f : List ℚ → List ℚ) (x : List ℚ) : List ℚ :=
  if doMix then mixBatch lam perm (f x) else f x

/-- Modelled from the spec: one mixup step interpolates both the
features and the targets of a batch with the single per-batch
coefficient `lam`. -/
def mixup_step (lam : ℚ) (perm : Nat → Nat) (features targets : List ℚ) :
    List ℚ × List ℚ :=
  (mixBatch lam perm features, mixBatch lam perm targets)

/-- Modelled from the spec: the beta function `B(a, b)` for positive
integer parameters, via factorials. -/
def betaFun (a b : ℕ) : ℚ :=
  ((a - 1).factorial * (b - 1).factorial : ℚ) / ((a + b - 1).factorial : ℚ)

/-- Modelled from the spec: the density of the symmetric beta
distribution `Beta(a, a)` the mixup coefficient is sampled from, for a
positive integer parameter `a` (the notebook's default is `a = 1`). -/
def betaPDF (a : ℕ) (x : ℚ) : ℚ :=
  if 0 ≤ x ∧ x ≤ 1 then x ^ (a - 1) * (1 - x) ^ (a - 1) / betaFun a a else 0

/-- Modelled from the spec: a call of `get_selected_layers` seen as an
operation on the (callback, model) pair; the selected set is "recomputed
on demand ... not cached or persisted", so the call returns the list and
hands back the criteria and the model untouched. -/
def get_selected_layers_call (mm : ManifoldMixup) (m : TModule) :
    List String × ManifoldMixup × TModule :=
  (mm.get_selected_layers m, mm, m)

/-- The datasets of the notebook's data cell, tracked by provenance:
the CIFAR10 train and test splits obtained from torchvision, and the
two partitions `DatasetValidationSplitter` derives from a base dataset. -/
inductive Dataset : Type where
  | cifar (train : Bool) : Dataset
  | splitterTrain (base : Dataset) : Dataset
  | splitterVal (base : Dataset) : Dataset
deriving Repr, DecidableEq

/-- `dataset = datasets.CIFAR10('./data/cifar', train=True, ...)`. -/
def dataset : Dataset := .cifar true

/-- `testset = datasets.CIFAR10(root='./data/cifar', train=False, ...)`. -/
def testset : Dataset := .cifar false

/-- `trainset = splitter.get_train_dataset(dataset)`. -/
def trainset : Dataset := .splitterTrain dataset

/-- `valset = splitter.get_val_dataset(dataset)`. -/
def valset : Dataset := .splitterVal dataset

/-- Whether a dataset was produced by the splitting utility
(`DatasetValidationSplitter`). -/
def producedBySplitter : Dataset → Bool
  | .splitterTrain _ => true
  | .splitterVal _ => true
  | .cifar _ => false

end Torchbearer

namespace Torchbearer

mutual

theorem length_walkMod (q : String) (d : Nat) :
    (m : TModule) → (walkMod q d m).length + 1 = countMod m
  | .mk _ cs => by
      have h := length_walkChildren q d cs
      simp [walkMod, countMod, h]
      omega

theorem length_walkChildren (p : String) (d : Nat) :
    (cs : Children) → (walkChildren p d cs).length = countChildren cs
  | .nil => rfl
  | .cons n m rest => by
      have h1 := length_walkMod (joinName p n) (d + 1) m
      have h2 := length_walkChildren p d rest
      simp [walkChildren, countChildren]
      omega

end

theorem selected_sublist (mm : ManifoldMixup) (m : TModule) :
    (mm.get_selected_layers m).Sublist (allSubmoduleNames m) :=
  List.Sublist.map LayerInfo.path (List.filter_sublist (walk m))

theorem mmAll_selects (e : LayerInfo) : mmAll.selects e = true := rfl

theorem get_selected_layers_mmAll (m : TModule) :
    mmAll.get_selected_layers m = allSubmoduleNames m := by
  unfold ManifoldMixup.get_selected_layers allSubmoduleNames
  rw [List.filter_eq_self.mpr fun e _ => mmAll_selects e]

theorem mixBatch_getD (lam : ℚ) (perm : Nat → Nat) (xs : List ℚ) (i : Nat)
    (h : i < xs.length) :
    (mixBatch lam perm xs).getD i 0 = mix lam (xs.getD i 0) (xs.getD (perm i) 0) := by
  simp [mixBatch, List.getD, h]

end Torchbearer

namespace Torchbearer

/-- C1: For `SimpleModel`, `get_selected_layers` on a callback configured
with `at_depth(1)` and `with_layer_type_filter([nn.BatchNorm2d, nn.ReLU])`
returns exactly `['convs_0', 'convs_3', 'convs_6']`, in that order. -/
theorem C1_depth1_type_filtered_selection :
    mmDepth1NoBnRelu.get_selected_layers SimpleModel
      = ["convs_0", "convs_3", "convs_6"] := by
  decide

/-- C2: The selected set is computed by walking the submodule tree and
testing each node; with `at_depth(None)` and no filters every submodule
of any model is selected, and for `SimpleModel` that is the 11 names
`'convs'`, `'convs_0'` … `'convs_8'` and `'classifier'`. -/
theorem C2_unfiltered_selects_every_submodule :
    (∀ m : TModule, mmAll.get_selected_layers m = allSubmoduleNames m)
    ∧ mmAll.get_selected_layers SimpleModel
        = ["convs", "convs_0", "convs_1", "convs_2", "convs_3", "convs_4",
           "convs_5", "convs_6", "convs_7", "convs_8", "classifier"]
    ∧ (mmAll.get_selected_layers SimpleModel).length = 11 :=
  ⟨get_selected_layers_mmAll, by decide, by decide⟩

/-- C3: Every layer the criteria select is wrapped, and only submodules
of the model can be wrapped (functional-interface operations never are);
when mixup is chosen for the batch the wrapped layer's output
activations, and the batch targets, are linearly interpolated between
two samples by the coefficient `lam`, and otherwise the layer is
unchanged. -/
theorem C3_wrapping_mixes_selected_layers :
    (∀ (mm : ManifoldMixup) (m : TModule),
        (wrappedLayers mm m).Sublist (allSubmoduleNames m))
    ∧ (∀ (lam : ℚ) (perm : Nat → Nat) (f : List ℚ → List ℚ) (x : List ℚ) (i : Nat),
        i < (f x).length →
          (wrapped_forward lam perm true f x).getD i 0
            = lam * (f x).getD i 0 + (1 - lam) * (f x).getD (perm i) 0)
    ∧ (∀ (lam : ℚ) (perm : Nat → Nat) (ys : List ℚ) (i : Nat), i < ys.length →
          (mixBatch lam perm ys).getD i 0
            = lam * ys.getD i 0 + (1 - lam) * ys.getD (perm i) 0)
    ∧ (∀ (lam : ℚ) (perm : Nat → Nat) (f : List ℚ → List ℚ) (x : List ℚ),
        wrapped_forward lam perm false f x = f x) := by
  refine ⟨fun mm m => selected_sublist mm m, ?_, ?_, fun _ _ _ _ => rfl⟩
  · intro lam perm f x i h
    simpa [wrapped_forward, mix] using mixBatch_getD lam perm (f x) i h
  · intro lam perm ys i h
    simpa [mix] using mixBatch_getD lam perm ys i h

/-- Witness for C3 at `lam = 1/2`, activations `[2, 4]`, partner map
`fun _ => 1`, index 0. -/
theorem C3_wrapping_mixes_selected_layers_witness :
    0 < (((fun _ => [2, 4]) : List ℚ → List ℚ) []).length
    ∧ (wrapped_forward (1/2) (fun _ => 1) true (fun _ => [2, 4]) []).getD 0 0
        = (1/2) * (([2, 4] : List ℚ).getD 0 0)
          + (1 - 1/2) * (([2, 4] : List ℚ).getD 1 0) :=
  ⟨by decide,
   C3_wrapping_mixes_selected_layers.2.1 (1/2) (fun _ => 1) (fun _ => [2, 4]) [] 0
     (by decide)⟩

/-- C4: The mixup coefficient is one scalar per batch, drawn from a
symmetric beta density; with the notebook's default parameter (`a = 1`)
that density is the uniform density on `[0, 1]`, and the one coefficient
interpolates both the features and the targets of the step. -/
theorem C4_beta_coefficient :
    (∀ x : ℚ, 0 ≤ x → x ≤ 1 → betaPDF 1 x = 1)
    ∧ (∀ (a : ℕ) (x : ℚ), betaPDF a x = betaPDF a (1 - x))
    ∧ (∀ (lam : ℚ) (perm : Nat → Nat) (fs ts : List ℚ),
        mixup_step lam perm fs ts = (mixBatch lam perm fs, mixBatch lam perm ts))
    ∧ (∀ (lam : ℚ) (perm : Nat → Nat) (fs ts : List ℚ) (i : Nat), i < fs.length →
        (mixup_step lam perm fs ts).1.getD i 0
          = mix lam (fs.getD i 0) (fs.getD (perm i) 0))
    ∧ (∀ (lam : ℚ) (perm : Nat → Nat) (fs ts : List ℚ) (i : Nat), i < ts.length →
        (mixup_step lam perm fs ts).2.getD i 0
          = mix lam (ts.getD i 0) (ts.getD (perm i) 0)) := by
  refine ⟨?_, ?_, fun _ _ _ _ => rfl, ?_, ?_⟩
  · intro x h0 h1
    norm_num [betaPDF, betaFun, h0, h1, Nat.factorial]
  · intro a x
    have hiff : (0 ≤ 1 - x ∧ 1 - x ≤ 1) ↔ (0 ≤ x ∧ x ≤ 1) := by
      constructor <;> rintro ⟨h1, h2⟩ <;> exact ⟨by linarith, by linarith⟩
    unfold betaPDF
    by_cases h : 0 ≤ x ∧ x ≤ 1
    · rw [if_pos h, if_pos (hiff.mpr h)]
      have hx : (1 : ℚ) - (1 - x) = x := by ring
      rw [hx]
      ring
    · rw [if_neg h, if_neg fun hc => h (hiff.mp hc)]
  · intro lam perm fs ts i h
    exact mixBatch_getD lam perm fs i h
  · intro lam perm fs ts i h
    exact mixBatch_getD lam perm ts i h

/-- Witness for C4: the density at `1/2` is 1, and both components of a
concrete step interpolate with the same coefficient. -/
theorem C4_beta_coefficient_witness :
    (0 ≤ (1/2 : ℚ) ∧ (1/2 : ℚ) ≤ 1)
    ∧ betaPDF 1 (1/2) = 1
    ∧ (mixup_step (1/2) (fun _ => 1) [2, 4] [10, 20]).1.getD 0 0
        = mix (1/2) (([2, 4] : List ℚ).getD 0 0) (([2, 4] : List ℚ).getD 1 0)
    ∧ (mixup_step (1/2) (fun _ => 1) [2, 4] [10, 20]).2.getD 0 0
        = mix (1/2) (([10, 20] : List ℚ).getD 0 0) (([10, 20] : List ℚ).getD 1 0) :=
  ⟨by norm_num,
   C4_beta_coefficient.1 (1/2) (by norm_num) (by norm_num),
   C4_beta_coefficient.2.2.2.1 (1/2) (fun _ => 1) [2, 4] [10, 20] 0 (by decide),
   C4_beta_coefficient.2.2.2.2 (1/2) (fun _ => 1) [2, 4] [10, 20] 0 (by decide)⟩

/-- C5 counterexample: in the notebook's data cell the test partition is
not produced by `DatasetValidationSplitter` — `testset` is built
directly as the CIFAR10 test split — so not all three partitions come
from the splitting utility. -/
theorem C5_counterexample_test_not_from_splitter :
    (producedBySplitter trainset && producedBySplitter valset
      && producedBySplitter testset) = false
    ∧ producedBySplitter testset = false := by
  decide

/-- C5 (amended): the splitter produces the train and validation
partitions from the obtained training dataset; the test partition is
obtained directly as the CIFAR10 test split, not via the splitter. -/
theorem C5_split_amended :
    trainset = Dataset.splitterTrain dataset
    ∧ valset = Dataset.splitterVal dataset
    ∧ producedBySplitter trainset = true
    ∧ producedBySplitter valset = true
    ∧ testset = Dataset.cifar false
    ∧ producedBySplitter testset = false := by
  decide

/-- C6: The criteria setters are fluent (each returns the callback with
only its own criterion changed, so calls chain — the notebook's chain
yields exactly depth 1 with the two filtered types); a
`get_selected_layers` call recomputes the selection, returns the same
list when repeated, and leaves the criteria and the model unchanged. -/
theorem C6_fluent_immutable_recompute :
    (∀ (mm : ManifoldMixup) (d : Option Nat),
        mm.at_depth d = ⟨d, mm.layerTypes, mm.layerNames⟩)
    ∧ (∀ (mm : ManifoldMixup) (ts : List String),
        mm.with_layer_type_filter ts = ⟨mm.depth, ts, mm.layerNames⟩)
    ∧ (∀ (mm : ManifoldMixup) (ns : List String),
        mm.with_layer_filter ns = ⟨mm.depth, mm.layerTypes, ns⟩)
    ∧ mmDepth1NoBnRelu = ⟨some 1, ["BatchNorm2d", "ReLU"], []⟩
    ∧ (∀ (mm : ManifoldMixup) (m : TModule),
        (get_selected_layers_call mm m).2.1 = mm
        ∧ (get_selected_layers_call mm m).2.2 = m)
    ∧ (∀ (mm : ManifoldMixup) (m : TModule),
        (get_selected_layers_call mm m).2.1.get_selected_layers
            (get_selected_layers_call mm m).2.2
          = (get_selected_layers_call mm m).1) :=
  ⟨fun _ _ => rfl, fun _ _ => rfl, fun _ _ => rfl, rfl,
   fun _ _ => ⟨rfl, rfl⟩, fun _ _ => rfl⟩

/-- C7: The traversal is a single pass over the submodule tree: it
records each submodule exactly once (the walk's length equals the
submodule count), so the selection does O(number of submodules) work and
is total for every finite module tree, unlimited depth included. -/
theorem C7_single_pass_bounded :
    ∀ (mm : ManifoldMixup) (m : TModule),
      (mm.get_selected_layers m).Sublist (allSubmoduleNames m)
      ∧ (walk m).length = submoduleCount m
      ∧ (allSubmoduleNames m).length = submoduleCount m :=
  fun mm m =>
    ⟨selected_sublist mm m, length_walkChildren "" 0 m.children, by
      simpa [allSubmoduleNames] using length_walkChildren "" 0 m.children⟩

/-- C8: With unlimited depth and no filters, container modules are
selected alongside their children: `'convs'` appears for `SimpleModel`,
the three `ConvModule` blocks appear for `BetterModel` next to their
submodules, and `BetterModel` yields 13 names. -/
theorem C8_containers_also_selected :
    "convs" ∈ mmAll.get_selected_layers SimpleModel
    ∧ "conv_mod1" ∈ mmAll.get_selected_layers BetterModel
    ∧ "conv_mod2" ∈ mmAll.get_selected_layers BetterModel
    ∧ "conv_mod3" ∈ mmAll.get_selected_layers BetterModel
    ∧ "conv_mod1_conv" ∈ mmAll.get_selected_layers BetterModel
    ∧ (mmAll.get_selected_layers BetterModel).length = 13 := by
  decide

/-- C9: `at_depth(d)` selects exactly the submodules at depth `d`, the
model's immediate children counting as depth 0: membership in the
selection is equivalent to being a walk entry of that depth, depth 0 on
`SimpleModel` gives `'convs'` and `'classifier'`, and depth 1 gives the
nine Sequential children and excludes the depth-0 modules. -/
theorem C9_at_depth_selects_exact_depth :
    (∀ (m : TModule) (d : Nat) (s : String),
        s ∈ (ManifoldMixup.new.at_depth (some d)).get_selected_layers m
          ↔ ∃ e ∈ walk m, e.path = s ∧ e.depth = d)
    ∧ (ManifoldMixup.new.at_depth (some 0)).get_selected_layers SimpleModel
        = ["convs", "classifier"]
    ∧ (ManifoldMixup.new.at_depth (some 1)).get_selected_layers SimpleModel
        = ["convs_0", "convs_1", "convs_2", "convs_3", "convs_4", "convs_5",
           "convs_6", "convs_7", "convs_8"]
    ∧ ((ManifoldMixup.new.at_depth (some 1)).get_selected_layers SimpleModel).contains
        "convs" = false
    ∧ ((ManifoldMixup.new.at_depth (some 1)).get_selected_layers SimpleModel).contains
        "classifier" = false := by
  refine ⟨?_, by decide, by decide, by decide, by decide⟩
  intro m d s
  simp only [ManifoldMixup.get_selected_layers, ManifoldMixup.selects,
    ManifoldMixup.new, ManifoldMixup.at_depth, List.mem_map, List.mem_filter,
    List.all_nil, Bool.and_true, Bool.true_and, beq_iff_eq]
  constructor
  · rintro ⟨e, ⟨he, hd⟩, hp⟩
    exact ⟨e, he, hp, hd⟩
  · rintro ⟨e, he, hp, hd⟩
    exact ⟨e, ⟨he, hd⟩, hp⟩

/-- C10: Selected names are the underscore-joined paths of the modules'
registered names — the first entry for a child `n` of the node at path
`p` is `joinName p n` with its depth and type, `conv` of `conv_mod1`
becomes `'conv_mod1_conv'`, and the anonymous Sequential children are
named by numeric position, `'convs_0'` … `'convs_8'`. -/
theorem C10_names_are_underscore_joined_paths :
    mmAll.get_selected_layers BetterModel
      = ["conv_mod1", "conv_mod1_conv", "conv_mod1_bn", "conv_mod1_relu",
         "conv_mod2", "conv_mod2_conv", "conv_mod2_bn", "conv_mod2_relu",
         "conv_mod3", "conv_mod3_conv", "conv_mod3_bn", "conv_mod3_relu",
         "classifier"]
    ∧ (∀ (p n : String) (d : Nat) (m : TModule) (rest : Children),
        (walkChildren p d (.cons n m rest)).head? = some ⟨joinName p n, d, m.ty⟩)
    ∧ joinName "conv_mod1" "conv" = "conv_mod1_conv"
    ∧ (["convs_0", "convs_1", "convs_2", "convs_3", "convs_4", "convs_5",
        "convs_6", "convs_7", "convs_8"].all
          (mmAll.get_selected_layers SimpleModel).contains) = true := by
  refine ⟨by decide, fun _ _ _ _ _ => rfl, by decide, by decide⟩

end Torchbearer
